import Mathlib

/-!
Verification of the flutter-check-design command-orchestration shim.

The development shallowly embeds the TypeScript/JavaScript source:
external command execution is modelled by an oracle (`ExecOutcome` values
supplied by the environment), promise rejection by the `err` constructor,
and each tool handler becomes a pure Lean function threading the list of
issued commands, the log of workflow steps and the simulated sleep time.
-/

namespace FlutterCheckDesign

/-- Outcome of one `execAsync` invocation: the promise either resolves with
captured stdout/stderr or rejects with an error message. -/
inductive ExecOutcome where
  | ok (stdout stderr : String)
  | err (msg : String)
  deriving DecidableEq, Repr

/-- `true` exactly when the outcome is a resolved promise. -/
def ExecOutcome.isOk : ExecOutcome → Bool
  | .ok _ _ => true
  | .err _ => false

/-- Contiguous-substring test on character lists. -/
def listContainsSub : List Char → List Char → Bool
  | [], pat => pat.isEmpty
  | c :: cs, pat => pat.isPrefixOf (c :: cs) || listContainsSub cs pat

/-- JavaScript `haystack.includes(needle)` on strings: substring containment. -/
def containsSubstr (s pat : String) : Bool :=
  listContainsSub s.toList pat.toList

/-- The boot test from `startSimulator`
(`stdout.includes(deviceId) && stdout.includes('Booted')`): two independent
substring checks over the whole `xcrun simctl list` output. -/
def bootedCheck (out deviceId : String) : Bool :=
  containsSubstr out deviceId && containsSubstr out "Booted"

/-- Result of a `startSimulator` call: the resolved success message, or the
message of the thrown error (a rejected initiating command or the timeout). -/
inductive SimResult where
  | success (msg : String)
  | error (msg : String)
  deriving DecidableEq, Repr

/-- One complete run of `startSimulator`: its result, the external commands it
issued in order, and the total simulated time slept (2 units per poll sleep). -/
structure SimRun where
  result : SimResult
  commands : List String
  sleepUnits : Nat
  deriving DecidableEq, Repr

/-- A command-execution environment: the outcome of the `k`-th `execAsync`
invocation made by the call under scrutiny. -/
def ExecEnv : Type := Nat → ExecOutcome

/-- The `while (attempts < maxAttempts)` loop of `startSimulator`, on fuel
`maxAttempts - attempts`.  Each iteration runs `xcrun simctl list`; on a
resolved output passing `bootedCheck` it returns success, otherwise — and on
a rejected status check alike — it sleeps 2 units and retries.  Exhaustion
throws the timeout error naming the device. -/
def pollLoop (env : ExecEnv) (deviceId : String) :
    Nat → Nat → List String → Nat → SimRun
  | _, 0, cmds, slept =>
    ⟨SimResult.error ("Simulator " ++ deviceId ++ " failed to start within timeout period"),
      cmds, slept⟩
  | k, fuel + 1, cmds, slept =>
    let cmds := cmds ++ ["xcrun simctl list"]
    match env k with
    | .ok out _ =>
      if bootedCheck out deviceId then
        ⟨SimResult.success ("Simulator " ++ deviceId ++ " started successfully"), cmds, slept⟩
      else
        pollLoop env deviceId (k + 1) fuel cmds (slept + 2)
    | .err _ => pollLoop env deviceId (k + 1) fuel cmds (slept + 2)

/-- `startSimulator(deviceId)`: the initial already-booted check (whose own
rejection is swallowed), then the two awaited initiating commands
`open -a Simulator` and `xcrun simctl boot <id>` (whose rejections propagate),
then the 30-attempt poll loop. -/
def startSimulator (env : ExecEnv) (deviceId : String) : SimRun :=
  let initCmds := ["xcrun simctl list"]
  let proceed : SimRun :=
    match env 1 with
    | .err m => ⟨SimResult.error m, initCmds ++ ["open -a Simulator"], 0⟩
    | .ok _ _ =>
      match env 2 with
      | .err m =>
        ⟨SimResult.error m,
          initCmds ++ ["open -a Simulator", ("xcrun simctl boot " ++ deviceId)], 0⟩
      | .ok _ _ =>
        pollLoop env deviceId 3 30
          (initCmds ++ ["open -a Simulator", ("xcrun simctl boot " ++ deviceId)]) 0
  match env 0 with
  | .ok out _ =>
    if bootedCheck out deviceId then
      ⟨SimResult.success ("Simulator " ++ deviceId ++ " is already running"), initCmds, 0⟩
    else proceed
  | .err _ => proceed

/-- Character class `[a-zA-Z0-9-]` of the device-id capture group. -/
def idChar (c : Char) : Bool :=
  (('a' ≤ c && c ≤ 'z') || ('A' ≤ c && c ≤ 'Z') || ('0' ≤ c && c ≤ '9') || c = '-')

/-- Greedy run of `idChar` characters at the head of the input. -/
def takeIdRun : List Char → List Char
  | [] => []
  | c :: cs => if idChar c then c :: takeIdRun cs else []

/-- The capture group `([a-zA-Z0-9-]+)`: a non-empty greedy id run. -/
def captureId (s : List Char) : Option String :=
  let run := takeIdRun s
  if run.isEmpty then none else some (String.mk run)

/-- One lazy-gap search step of the JS regex engine: find the literal `lit`
after a shortest gap of non-newline characters (`.*?` semantics), run the
continuation `k` on the remainder, and on its failure backtrack by letting
the gap swallow one more non-newline character. -/
def scanLazy (lit : List Char) (k : List Char → Option String) :
    List Char → Option String
  | [] => if lit.isPrefixOf ([] : List Char) then k [] else none
  | c :: cs =>
    match (if lit.isPrefixOf (c :: cs) then k ((c :: cs).drop lit.length) else none) with
    | some r => some r
    | none => if c = '\n' then none else scanLazy lit k cs

/-- Leftmost-match scan for the start literal of the regex: try every start
position of the subject in order (no newline restriction on where a match
may start). -/
def scanStart (lit : List Char) (k : List Char → Option String) :
    List Char → Option String
  | [] => none
  | c :: cs =>
    match (if lit.isPrefixOf (c :: cs) then k ((c :: cs).drop lit.length) else none) with
    | some r => some r
    | none => scanStart lit k cs

/-- `devicesOutput.match(/iOS Simulator.*?\(mobile\).*?• ([a-zA-Z0-9-]+)/)`:
the first captured device identifier, under JS leftmost-match, lazy-gap,
dot-excludes-newline semantics. -/
def extractSim (s : String) : Option String :=
  scanStart "iOS Simulator".toList
    (scanLazy "(mobile)".toList
      (scanLazy "• ".toList captureId)) s.toList

/-- Whitespace for the purposes of `trim`. -/
def wsChar (c : Char) : Bool :=
  c = ' ' || c = '\t' || c = '\n' || c = '\r'

/-- JavaScript `s.trim()`: strip leading and trailing whitespace. -/
def trimStr (s : String) : String :=
  String.mk (((s.toList.dropWhile wsChar).reverse.dropWhile wsChar).reverse)

/-- `isAppInstalledOnBootedSimulator(bundleId)`: given the outcome of the
underlying `xcrun simctl get_app_container booted <id>` query, return `true`
iff the query resolved with output that is non-empty after trimming; any
rejection is swallowed into `false`. -/
def isAppInstalledOnBootedSimulator (query : ExecOutcome) : Bool :=
  match query with
  | .ok stdout _ => (trimStr stdout).length > 0
  | .err _ => false

/-- One MCP content block: text, or a base64 image with a MIME type. -/
inductive Content where
  | text (s : String)
  | image (data mimeType : String)
  deriving DecidableEq, Repr

/-- A tool response: content blocks plus the `isError` flag. -/
structure ToolResponse where
  content : List Content
  isError : Bool
  deriving DecidableEq, Repr

/-- Oracle for one `fullWorkflow` run: the outcome of each awaited
sub-operation, in the order the orchestrator may consult them. -/
structure WfEnv where
  build : ExecOutcome
  devices : ExecOutcome
  startSim : ExecOutcome
  plist : ExecOutcome
  container : ExecOutcome
  install : ExecOutcome
  launch : ExecOutcome
  screenshot : Except String (List Content)
  deriving Repr

/-- A `fullWorkflow` run: the response returned to the caller, and the trace
of sub-operations actually performed (with the arguments that matter). -/
structure WfRun where
  response : ToolResponse
  ops : List String
  deriving DecidableEq, Repr

/-- The catch-block of `fullWorkflow`: report the last log line appended
before the failure, the error message, and all log lines before that one. -/
def failResp (steps : List String) (m : String) : ToolResponse :=
  ⟨[Content.text ("Workflow failed at step: " ++ (steps.getLast?.getD "") ++
      "\nError: " ++ m ++ "\nCompleted steps:\n" ++
      String.intercalate "\n" steps.dropLast)], true⟩

/-- Steps 5–6 of `fullWorkflow` (launch, screenshot, final response). -/
def afterInstall (env : WfEnv) (steps : List String) (deviceId : String)
    (ops : List String) : WfRun :=
  let steps := steps ++ ["Launching Flutter app..."]
  let ops := ops ++ [("launch:" ++ deviceId)]
  match env.launch with
  | .err m => ⟨failResp steps m, ops⟩
  | .ok _ _ =>
    let steps := steps ++ ["✓ App launched", "Taking screenshot..."]
    let ops := ops ++ ["screenshot"]
    match env.screenshot with
    | .error m => ⟨failResp steps m, ops⟩
    | .ok shots =>
      let steps := steps ++ ["✓ Screenshot captured"]
      ⟨⟨Content.text ("Flutter Design Check Workflow completed:\n" ++
          String.intercalate "\n" steps) :: shots.drop 1, false⟩, ops⟩

/-- Steps 3–4 of `fullWorkflow` (start simulator, bundle id, install check,
conditional install), then the tail. -/
def afterResolve (env : WfEnv) (steps : List String) (deviceId : String)
    (ops : List String) : WfRun :=
  let steps := steps ++ ["Starting simulator..."]
  let ops := ops ++ [("startSim:" ++ deviceId)]
  match env.startSim with
  | .err m => ⟨failResp steps m, ops⟩
  | .ok _ _ =>
    let steps := steps ++ ["✓ Simulator started"]
    let ops := ops ++ ["plist"]
    match env.plist with
    | .err m => ⟨failResp steps m, ops⟩
    | .ok bundleOut _ =>
      let bundleId := trimStr bundleOut
      let steps := steps ++ [("Checking installed app container for bundle: " ++ bundleId ++ "...")]
      let ops := ops ++ [("container:" ++ bundleId)]
      if isAppInstalledOnBootedSimulator env.container then
        afterInstall env
          (steps ++ ["✓ App already installed on booted simulator (get_app_container succeeded)"])
          deviceId ops
      else
        let steps := steps ++ ["Installing Flutter app..."]
        let ops := ops ++ [("install:" ++ deviceId)]
        match env.install with
        | .err m => ⟨failResp steps m, ops⟩
        | .ok _ _ => afterInstall env (steps ++ ["✓ App installed"]) deviceId ops

/-- `fullWorkflow(deviceId?, projectPath, screenshotFilename)`: build, then
device resolution via `extractSim` over the wrapped `flutter devices` output
when no identifier was supplied, then the remaining stages.  Any stage's
rejection lands in the catch-block `failResp`. -/
def fullWorkflow (env : WfEnv) (deviceId? : Option String) : WfRun :=
  let steps := ["Building Flutter iOS app..."]
  match env.build with
  | .err m => ⟨failResp steps m, ["build"]⟩
  | .ok _ _ =>
    let steps := steps ++ ["✓ iOS app built successfully"]
    match deviceId? with
    | some deviceId => afterResolve env steps deviceId ["build"]
    | none =>
      match env.devices with
      | .err m => ⟨failResp steps m, ["build", "devices"]⟩
      | .ok devOut _ =>
        match extractSim ("Available Flutter devices:\n" ++ devOut) with
        | some deviceId =>
          afterResolve env (steps ++ [("✓ Using iOS simulator: " ++ deviceId)])
            deviceId ["build", "devices"]
        | none => ⟨failResp steps "No iOS simulator found", ["build", "devices"]⟩

/-- Provenance label recorded in `configSources`. -/
inductive Source where
  | cli
  | env
  | default
  deriving DecidableEq, Repr

/-- The raw command line, before yargs applies option defaults: each boolean
flag is `true` exactly when passed, and `port` is the flag's value when
passed, `none` when absent. -/
structure CliRaw where
  stdio : Bool
  http : Bool
  remote : Bool
  port : Option Nat
  deriving DecidableEq, Repr

/-- The process environment variables consulted by `getServerConfig`. -/
structure EnvVars where
  nodeEnv : Option String
  httpMode : Option String
  remoteMode : Option String
  httpPort : Option String
  deriving DecidableEq, Repr

/-- The configuration record built by `getServerConfig` (the fields the
claims are about).  `httpPort = none` models a `NaN` from `parseInt`. -/
structure ServerConfig where
  isStdioMode : Bool
  isHttpMode : Bool
  isRemoteMode : Bool
  httpPort : Option Nat
  srcStdio : Source
  srcHttp : Source
  srcRemote : Source
  srcPort : Source
  deriving DecidableEq, Repr

/-- JavaScript `parseInt(s, 10)` restricted to what the code needs: skip
leading spaces, read a greedy run of decimal digits, `NaN` (`none`) if the
run is empty. -/
def parseIntJS (s : String) : Option Nat :=
  let cs := s.toList.dropWhile (fun c => c = ' ')
  let ds := cs.takeWhile Char.isDigit
  if ds.isEmpty then none
  else some (ds.foldl (fun n c => n * 10 + (c.toNat - 48)) 0)

/-- JavaScript truthiness of an optional environment-variable string:
defined and non-empty. -/
def envTruthy : Option String → Bool
  | none => false
  | some s => !(s.isEmpty)

/-- `getServerConfig()`: yargs fills `argv.port` with the option default 3333
when the flag is absent; then stdio, http, remote and port are settled in
order, the remote branch also forcing `isHttpMode`. -/
def getServerConfig (cli : CliRaw) (env : EnvVars) : ServerConfig :=
  let argvPort : Nat := cli.port.getD 3333
  let c0 : ServerConfig :=
    ⟨false, false, false, some 3333, Source.default, Source.default,
      Source.default, Source.default⟩
  let c1 :=
    if cli.stdio then { c0 with isStdioMode := true, srcStdio := Source.cli }
    else if env.nodeEnv = some "cli" then
      { c0 with isStdioMode := true, srcStdio := Source.env }
    else c0
  let c2 :=
    if cli.http then { c1 with isHttpMode := true, srcHttp := Source.cli }
    else if env.httpMode = some "true" then
      { c1 with isHttpMode := true, srcHttp := Source.env }
    else c1
  let c3 :=
    if cli.remote then
      { c2 with isRemoteMode := true, isHttpMode := true, srcRemote := Source.cli }
    else if env.remoteMode = some "true" then
      { c2 with isRemoteMode := true, isHttpMode := true, srcRemote := Source.env }
    else c2
  if argvPort ≠ 0 then { c3 with httpPort := some argvPort, srcPort := Source.cli }
  else if envTruthy env.httpPort then
    { c3 with httpPort := parseIntJS (env.httpPort.getD ""), srcPort := Source.env }
  else c3

/-- The transport state of `FlutterDesignChecker.run`: the single-slot active
SSE transport and the session-id → transport routing table. -/
structure SseState where
  currentTransport : Option Nat
  transportsBySession : List (String × Nat)
  deriving DecidableEq, Repr

/-- Response of the HTTP handler on `GET /sse`. -/
inductive SseResponse where
  | accepted (sessionId : String)
  | rejected (status : Nat) (body : String)
  deriving DecidableEq, Repr

/-- The `GET /sse` branch of the HTTP handler: reject with 409 while a
transport is active, otherwise install the fresh transport as current and
register it under its session id. -/
def handleSseConnect (st : SseState) (newTransport : Nat) (newSessionId : String) :
    SseResponse × SseState :=
  match st.currentTransport with
  | some _ => (SseResponse.rejected 409 "MCP server already has an active SSE session", st)
  | none =>
    (SseResponse.accepted newSessionId,
      ⟨some newTransport, (newSessionId, newTransport) :: st.transportsBySession⟩)

/-- The `onclose` callback registered at connect time: drop the session from
the routing table and clear the single slot if it still holds this transport. -/
def handleSseClose (st : SseState) (transport : Nat) (sessionId : String) : SseState :=
  ⟨if st.currentTransport = some transport then none else st.currentTransport,
    st.transportsBySession.filter (fun p => p.1 ≠ sessionId)⟩

/-- Split a character list at newline characters. -/
def splitLinesAux : List Char → List Char → List (List Char)
  | [], acc => [acc.reverse]
  | c :: cs, acc =>
    if c = '\n' then acc.reverse :: splitLinesAux cs [] else splitLinesAux cs (c :: acc)

/-- Modelled from the spec wording, for the refinement comparison in C7: the
booted marker pertains to the device's own entry, i.e. some single line of
the status output mentions both the identifier and `Booted`. -/
def bootedForDeviceEntry (out deviceId : String) : Bool :=
  (splitLinesAux out.toList []).any
    (fun line => listContainsSub line deviceId.toList && listContainsSub line "Booted".toList)

/-- The initiating log lines the orchestrator pushes before attempting a
stage (the sixth one, the container check, is parametrised by the bundle id). -/
def isInitiatingLogLine (s : String) : Bool :=
  (s ∈ ["Building Flutter iOS app...", "Starting simulator...",
        "Installing Flutter app...", "Launching Flutter app...",
        "Taking screenshot..."]) ||
  "Checking installed app container for bundle: ".isPrefixOf s

/-- Environment whose status checks always resolve with empty output: the
booted marker never appears. -/
def envNeverBooted : ExecEnv := fun _ => ExecOutcome.ok "" ""

/-- Environment where the initial status check resolves not-booted and the
`open -a Simulator` initiating command rejects. -/
def envOpenFails : ExecEnv :=
  fun k => if k = 0 then ExecOutcome.ok "" "" else ExecOutcome.err "open failed"

/-- Environment whose very first status check already reports the device as
booted. -/
def envAlreadyBooted : ExecEnv := fun _ => ExecOutcome.ok "X (Booted)" ""

/-- A status output whose `AAAA` entry is shut down while a different device
`BBBB` is booted. -/
def mixedStatusOutput : String := "AAAA (Shutdown)\nBBBB (Booted)"

/-- Environment for the marker counterexample: initial check rejects, the
initiating commands resolve, and the first poll sees `mixedStatusOutput`. -/
def envMixed : ExecEnv :=
  fun k =>
    if k = 0 then ExecOutcome.err "initial check failed"
    else if k = 3 then ExecOutcome.ok mixedStatusOutput ""
    else ExecOutcome.ok "" ""

/-- Environment whose first poll (invocation 3) sees the device booted. -/
def envFirstPollBooted : ExecEnv :=
  fun k =>
    if k = 0 then ExecOutcome.err "initial check failed"
    else ExecOutcome.ok "X (Booted)" ""

/-- Workflow oracle where the build succeeds but device discovery output
contains no iOS-simulator entry. -/
def envResolveFail : WfEnv :=
  ⟨ExecOutcome.ok "" "", ExecOutcome.ok "no simulators here" "",
    ExecOutcome.ok "" "", ExecOutcome.ok "" "", ExecOutcome.ok "" "",
    ExecOutcome.ok "" "", ExecOutcome.ok "" "", Except.error "unused"⟩

/-- Workflow oracle where discovery output contains a well-formed
iOS-simulator entry with identifier `ABCD-1`. -/
def envResolveOk : WfEnv :=
  ⟨ExecOutcome.ok "" "",
    ExecOutcome.ok "iOS Simulator (mobile) • ABCD-1 • ios" "",
    ExecOutcome.ok "" "", ExecOutcome.ok "" "", ExecOutcome.ok "" "",
    ExecOutcome.ok "" "", ExecOutcome.ok "" "", Except.error "unused"⟩

/-- Workflow oracle whose build step rejects. -/
def envBuildFails : WfEnv :=
  ⟨ExecOutcome.err "build broke", ExecOutcome.ok "" "", ExecOutcome.ok "" "",
    ExecOutcome.ok "" "", ExecOutcome.ok "" "", ExecOutcome.ok "" "",
    ExecOutcome.ok "" "", Except.error "unused"⟩

/-! ## Poll-loop lemmas -/

/-- When no resolved status check ever passes `bootedCheck`, the poll loop
runs its whole fuel, appending one status command and 2 sleep units per
attempt, and exits with the timeout error. -/
theorem pollLoop_never_booted (env : ExecEnv) (deviceId : String)
    (hnever : ∀ k out e, env k = ExecOutcome.ok out e → bootedCheck out deviceId = false) :
    ∀ fuel k cmds slept,
      pollLoop env deviceId k fuel cmds slept =
        ⟨SimResult.error
            ("Simulator " ++ deviceId ++ " failed to start within timeout period"),
          cmds ++ List.replicate fuel "xcrun simctl list", slept + 2 * fuel⟩ := by
  intro fuel
  induction fuel with
  | zero =>
    intro k cmds slept
    simp [pollLoop]
  | succ n ih =>
    intro k cmds slept
    unfold pollLoop
    cases henv : env k with
    | ok out e =>
      simp only [hnever k out e henv, Bool.false_eq_true, if_false, ih (k + 1)]
      simp only [SimRun.mk.injEq, List.append_assoc, List.singleton_append,
        List.replicate_succ, true_and]
      omega
    | err m =>
      simp only [ih (k + 1)]
      simp only [SimRun.mk.injEq, List.append_assoc, List.singleton_append,
        List.replicate_succ, true_and]
      omega

/-- The poll loop never decreases the accumulated sleep counter. -/
theorem pollLoop_sleep_ge (env : ExecEnv) (deviceId : String) :
    ∀ fuel k cmds slept, slept ≤ (pollLoop env deviceId k fuel cmds slept).sleepUnits := by
  intro fuel
  induction fuel with
  | zero => intro k cmds slept; simp [pollLoop]
  | succ n ih =>
    intro k cmds slept
    unfold pollLoop
    cases henv : env k with
    | ok out e =>
      cases hb : bootedCheck out deviceId with
      | true => simp [hb]
      | false =>
        simp only [hb, Bool.false_eq_true, if_false]
        calc slept ≤ slept + 2 := by omega
          _ ≤ _ := ih (k + 1) _ _
    | err m =>
      calc slept ≤ slept + 2 := by omega
        _ ≤ _ := ih (k + 1) _ _

/-! ## C1 -/

/-- C1: for a device whose booted marker never appears in any resolved
status-check output, once the initiating open/boot commands resolve, the
poll loop swallows status-check rejections like ordinary misses, performs
exactly 30 status-check attempts with a 2-unit sleep after each, and throws
the timeout error naming the device after 60 total sleep units, which lies
within the budget window [58, 62]. -/
theorem startSimulator_timeout (env : ExecEnv) (deviceId o1 e1 o2 e2 : String)
    (hopen : env 1 = ExecOutcome.ok o1 e1) (hboot : env 2 = ExecOutcome.ok o2 e2)
    (hnever : ∀ k out e, env k = ExecOutcome.ok out e → bootedCheck out deviceId = false) :
    startSimulator env deviceId =
      ⟨SimResult.error
          ("Simulator " ++ deviceId ++ " failed to start within timeout period"),
        ["xcrun simctl list", "open -a Simulator", "xcrun simctl boot " ++ deviceId] ++
          List.replicate 30 "xcrun simctl list",
        60⟩ ∧
    58 ≤ (startSimulator env deviceId).sleepUnits ∧
    (startSimulator env deviceId).sleepUnits ≤ 62 := by
  have hrun : startSimulator env deviceId =
      pollLoop env deviceId 3 30
        (["xcrun simctl list"] ++
          ["open -a Simulator", "xcrun simctl boot " ++ deviceId]) 0 := by
    unfold startSimulator
    cases h0 : env 0 with
    | ok out e =>
      simp only [h0, hopen, hboot, hnever 0 out e h0, Bool.false_eq_true, if_false]
    | err m =>
      simp only [h0, hopen, hboot]
  rw [hrun, pollLoop_never_booted env deviceId hnever 30 3]
  refine ⟨by simp, by simp, by simp⟩

/-- Closed instance of `startSimulator_timeout` on the environment whose
status checks always resolve with empty output. -/
theorem startSimulator_timeout_witness :
    startSimulator envNeverBooted "X" =
      ⟨SimResult.error "Simulator X failed to start within timeout period",
        ["xcrun simctl list", "open -a Simulator", "xcrun simctl boot X"] ++
          List.replicate 30 "xcrun simctl list",
        60⟩ :=
  (startSimulator_timeout envNeverBooted "X" "" "" "" "" rfl rfl
    (fun _ out e h => by cases h; decide)).1

/-! ## C2 -/

/-- C2 counterexample: with the device not booted at entry and the
`open -a Simulator` initiating command rejecting, `startSimulator` fails
right there — the rejection propagates as the result, no status-check
command is ever issued after the initiating step, and the result is neither
the timeout error nor a success, so the poll loop did not decide the
outcome. -/
theorem startSimulator_initFail_cex :
    startSimulator envOpenFails "X" =
      ⟨SimResult.error "open failed", ["xcrun simctl list", "open -a Simulator"], 0⟩ ∧
    (startSimulator envOpenFails "X").result ≠
      SimResult.error "Simulator X failed to start within timeout period" ∧
    (startSimulator envOpenFails "X").commands.count "xcrun simctl list" = 1 := by
  refine ⟨by decide, by decide, by decide⟩

/-- C2 amended: a rejection of either initiating command (`open -a
Simulator`, `xcrun simctl boot`) is fatal — `startSimulator` throws that
very error at once, with no sleep and no poll-loop status check issued. -/
theorem startSimulator_initFail (env : ExecEnv) (deviceId m : String)
    (h0 : ∀ out e, env 0 = ExecOutcome.ok out e → bootedCheck out deviceId = false) :
    (env 1 = ExecOutcome.err m →
      startSimulator env deviceId =
        ⟨SimResult.error m, ["xcrun simctl list", "open -a Simulator"], 0⟩) ∧
    (∀ o1 e1, env 1 = ExecOutcome.ok o1 e1 → env 2 = ExecOutcome.err m →
      startSimulator env deviceId =
        ⟨SimResult.error m,
          ["xcrun simctl list", "open -a Simulator", "xcrun simctl boot " ++ deviceId],
          0⟩) := by
  constructor
  · intro h1
    unfold startSimulator
    cases hb : env 0 with
    | ok out e =>
      simp only [hb, h1, h0 out e hb, Bool.false_eq_true, if_false]
      rfl
    | err m2 =>
      simp only [hb, h1]
      rfl
  · intro o1 e1 h1 h2
    unfold startSimulator
    cases hb : env 0 with
    | ok out e =>
      simp only [hb, h1, h2, h0 out e hb, Bool.false_eq_true, if_false]
      rfl
    | err m2 =>
      simp only [hb, h1, h2]
      rfl

/-- Closed instance of `startSimulator_initFail` on `envOpenFails`. -/
theorem startSimulator_initFail_witness :
    startSimulator envOpenFails "X" =
      ⟨SimResult.error "open failed", ["xcrun simctl list", "open -a Simulator"], 0⟩ :=
  (startSimulator_initFail envOpenFails "X" "open failed"
    (fun out e h => by cases h; decide)).1 rfl

/-! ## C3 -/

/-- C3 counterexample: with the device already reported booted at entry,
`startSimulator` returns the already-running success after issuing only the
single status-check command — the initiating `open -a Simulator` and
`xcrun simctl boot` commands are never issued, contrary to the claim that
they still are. -/
theorem startSimulator_alreadyBooted_cex :
    (startSimulator envAlreadyBooted "X").result =
      SimResult.success "Simulator X is already running" ∧
    (startSimulator envAlreadyBooted "X").commands = ["xcrun simctl list"] ∧
    "open -a Simulator" ∉ (startSimulator envAlreadyBooted "X").commands ∧
    "xcrun simctl boot X" ∉ (startSimulator envAlreadyBooted "X").commands := by
  refine ⟨by decide, by decide, by decide, by decide⟩

/-- C3 amended: when the entry status check reports the device booted,
`startSimulator` returns success at once — a single status-check command,
zero sleep, and no initiating open/boot command at all. -/
theorem startSimulator_alreadyBooted (env : ExecEnv) (deviceId out e : String)
    (h0 : env 0 = ExecOutcome.ok out e) (hb : bootedCheck out deviceId = true) :
    startSimulator env deviceId =
      ⟨SimResult.success ("Simulator " ++ deviceId ++ " is already running"),
        ["xcrun simctl list"], 0⟩ := by
  unfold startSimulator
  simp only [h0, hb, if_true]

/-- Closed instance of `startSimulator_alreadyBooted` on `envAlreadyBooted`. -/
theorem startSimulator_alreadyBooted_witness :
    startSimulator envAlreadyBooted "X" =
      ⟨SimResult.success "Simulator X is already running", ["xcrun simctl list"], 0⟩ :=
  startSimulator_alreadyBooted envAlreadyBooted "X" "X (Booted)" "" rfl (by decide)

/-! ## C7 -/

/-- C7 counterexample: on a status output whose `AAAA` entry is shut down
while a different device `BBBB` is booted, the poll check succeeds for
`AAAA` — yet no single line of the output carries both the identifier and
the booted marker, so the marker does not pertain to that identifier's
entry. -/
theorem startSimulator_marker_cex :
    (startSimulator envMixed "AAAA").result =
      SimResult.success "Simulator AAAA started successfully" ∧
    bootedForDeviceEntry mixedStatusOutput "AAAA" = false := by
  refine ⟨by decide, by decide⟩

/-- C7 amended: a poll's status check succeeds immediately iff the output
contains the device identifier as a substring and contains `Booted` as a
substring anywhere in the whole output — the two matches need not pertain
to the same device entry. -/
theorem startSimulator_first_poll_iff (env : ExecEnv)
    (deviceId m0 o1 e1 o2 e2 out e : String)
    (h0 : env 0 = ExecOutcome.err m0)
    (h1 : env 1 = ExecOutcome.ok o1 e1) (h2 : env 2 = ExecOutcome.ok o2 e2)
    (h3 : env 3 = ExecOutcome.ok out e) :
    (startSimulator env deviceId =
      ⟨SimResult.success ("Simulator " ++ deviceId ++ " started successfully"),
        ["xcrun simctl list", "open -a Simulator", "xcrun simctl boot " ++ deviceId,
          "xcrun simctl list"], 0⟩) ↔
      (containsSubstr out deviceId = true ∧ containsSubstr out "Booted" = true) := by
  have hbiff : bootedCheck out deviceId = true ↔
      (containsSubstr out deviceId = true ∧ containsSubstr out "Booted" = true) := by
    unfold bootedCheck
    exact (Bool.and_eq_true _ _).to_iff
  have hrun : startSimulator env deviceId =
      pollLoop env deviceId 3 30
        ["xcrun simctl list", "open -a Simulator", "xcrun simctl boot " ++ deviceId] 0 := by
    unfold startSimulator
    simp only [h0, h1, h2]
    rfl
  rw [hrun]
  cases hb : bootedCheck out deviceId with
  | true =>
    have hstep : pollLoop env deviceId 3 30
        ["xcrun simctl list", "open -a Simulator", "xcrun simctl boot " ++ deviceId] 0 =
        ⟨SimResult.success ("Simulator " ++ deviceId ++ " started successfully"),
          ["xcrun simctl list", "open -a Simulator", "xcrun simctl boot " ++ deviceId,
            "xcrun simctl list"], 0⟩ := by
      unfold pollLoop
      simp only [h3, hb, if_true]
      rfl
    rw [hstep]
    exact iff_of_true rfl (hbiff.mp hb)
  | false =>
    have hstep : pollLoop env deviceId 3 30
        ["xcrun simctl list", "open -a Simulator", "xcrun simctl boot " ++ deviceId] 0 =
        pollLoop env deviceId 4 29
          (["xcrun simctl list", "open -a Simulator", "xcrun simctl boot " ++ deviceId] ++
            ["xcrun simctl list"]) 2 := by
      conv_lhs => unfold pollLoop
      simp only [h3, hb, Bool.false_eq_true, if_false]
    rw [hstep]
    constructor
    · intro heq
      exfalso
      have hge := pollLoop_sleep_ge env deviceId 29 4
        (["xcrun simctl list", "open -a Simulator", "xcrun simctl boot " ++ deviceId] ++
          ["xcrun simctl list"]) 2
      rw [congrArg SimRun.sleepUnits heq] at hge
      simp at hge
    · intro hc
      exact absurd (hbiff.mpr hc) (by simp [hb])

/-- Closed instance of `startSimulator_first_poll_iff` on the environment
whose first poll reports the device booted. -/
theorem startSimulator_first_poll_witness :
    startSimulator envFirstPollBooted "X" =
      ⟨SimResult.success "Simulator X started successfully",
        ["xcrun simctl list", "open -a Simulator", "xcrun simctl boot X",
          "xcrun simctl list"], 0⟩ :=
  (startSimulator_first_poll_iff envFirstPollBooted "X" "initial check failed"
    "X (Booted)" "" "X (Booted)" "" "X (Booted)" "" rfl rfl rfl rfl).mpr (by decide)

/-! ## C6 -/

/-- C6: the installed-app probe never raises — it is a total boolean
function of the query outcome — it returns `false` on every rejected query,
and it returns `true` exactly when the query resolved with output that is
non-empty after trimming whitespace. -/
theorem probe_false_on_error_true_iff_nonempty (query : ExecOutcome) :
    (∀ m, query = ExecOutcome.err m → isAppInstalledOnBootedSimulator query = false) ∧
    (isAppInstalledOnBootedSimulator query = true ↔
      ∃ out e, query = ExecOutcome.ok out e ∧ 0 < (trimStr out).length) := by
  constructor
  · intro m h
    subst h
    rfl
  · cases query with
    | ok out e =>
      simp only [isAppInstalledOnBootedSimulator, ExecOutcome.ok.injEq]
      constructor
      · intro h
        exact ⟨out, e, ⟨rfl, rfl⟩, by simpa using h⟩
      · rintro ⟨o2, e2, ⟨ho, he⟩, hlen⟩
        subst ho; subst he
        simpa using hlen
    | err m =>
      simp [isAppInstalledOnBootedSimulator]

/-- Closed instance of `probe_false_on_error_true_iff_nonempty`: a rejected
query reports absence, a resolved query with whitespace-padded non-empty
output reports presence. -/
theorem probe_witness :
    isAppInstalledOnBootedSimulator (ExecOutcome.err "query failed") = false ∧
    isAppInstalledOnBootedSimulator (ExecOutcome.ok " /path/to/App.app " "") = true :=
  ⟨(probe_false_on_error_true_iff_nonempty (ExecOutcome.err "query failed")).1
      "query failed" rfl,
    (probe_false_on_error_true_iff_nonempty
        (ExecOutcome.ok " /path/to/App.app " "")).2.mpr
      ⟨" /path/to/App.app ", "", rfl, by decide⟩⟩

/-! ## C8 -/

/-- C8: in any transport state with an active SSE session, a further
connection attempt on the streaming endpoint is rejected with HTTP 409 and
the "already active" body, and the state — the active session slot and the
session-id lookup table alike — is returned unchanged. -/
theorem sse_second_session_rejected (st : SseState) (t newTransport : Nat)
    (newSessionId : String) (h : st.currentTransport = some t) :
    handleSseConnect st newTransport newSessionId =
      (SseResponse.rejected 409 "MCP server already has an active SSE session", st) := by
  unfold handleSseConnect
  rw [h]

/-- Closed instance of `sse_second_session_rejected` on a one-session state. -/
theorem sse_second_session_rejected_witness :
    handleSseConnect ⟨some 1, [("session-1", 1)]⟩ 2 "session-2" =
      (SseResponse.rejected 409 "MCP server already has an active SSE session",
        (⟨some 1, [("session-1", 1)]⟩ : SseState)) :=
  sse_second_session_rejected ⟨some 1, [("session-1", 1)]⟩ 1 2 "session-2" rfl

/-! ## C9 -/

/-- C9: with no `--port` flag passed and `HTTP_PORT=8080` in the
environment, `getServerConfig` still reports port 3333 sourced from the CLI
layer — yargs fills the flag's default before the precedence chain runs, so
the environment variable never takes effect; the claimed CLI > env >
default precedence fails for the port. -/
theorem port_env_var_ignored :
    getServerConfig ⟨false, false, false, none⟩ ⟨none, none, none, some "8080"⟩ =
      ⟨false, false, false, some 3333, Source.default, Source.default,
        Source.default, Source.cli⟩ ∧
    (getServerConfig ⟨false, false, false, none⟩ ⟨none, none, none, some "8080"⟩).httpPort ≠
      some 8080 := by
  refine ⟨by decide, by decide⟩

/-! ## C10 -/

/-- C10: every configuration produced by `getServerConfig` satisfies
`isRemoteMode → isHttpMode`; moreover either way of selecting remote mode —
the `--remote` CLI flag or `REMOTE_MODE=true` — forces HTTP mode on,
whatever the `--http` flag and `HTTP_MODE` variable are. -/
theorem remote_mode_implies_http_mode (cli : CliRaw) (env : EnvVars) :
    ((getServerConfig cli env).isRemoteMode = true →
      (getServerConfig cli env).isHttpMode = true) ∧
    (cli.remote = true →
      (getServerConfig cli env).isRemoteMode = true ∧
      (getServerConfig cli env).isHttpMode = true) ∧
    (env.remoteMode = some "true" →
      (getServerConfig cli env).isRemoteMode = true ∧
      (getServerConfig cli env).isHttpMode = true) := by
  by_cases hcr : cli.remote = true
  · simp [getServerConfig, hcr, apply_ite ServerConfig.isRemoteMode,
      apply_ite ServerConfig.isHttpMode, ite_self]
  · have hcr2 : cli.remote = false := by simpa using hcr
    by_cases hrm : env.remoteMode = some "true"
    · simp [getServerConfig, hcr2, hrm, apply_ite ServerConfig.isRemoteMode,
        apply_ite ServerConfig.isHttpMode, ite_self]
    · simp [getServerConfig, hcr2, hrm, apply_ite ServerConfig.isRemoteMode,
        apply_ite ServerConfig.isHttpMode, ite_self]

/-- Closed instance of `remote_mode_implies_http_mode`: `REMOTE_MODE=true`
with no CLI flags yields HTTP mode on. -/
theorem remote_mode_implies_http_mode_witness :
    (getServerConfig ⟨false, false, false, none⟩
        ⟨none, none, some "true", none⟩).isRemoteMode = true ∧
    (getServerConfig ⟨false, false, false, none⟩
        ⟨none, none, some "true", none⟩).isHttpMode = true :=
  (remote_mode_implies_http_mode ⟨false, false, false, none⟩
    ⟨none, none, some "true", none⟩).2.2 rfl

/-! ## Workflow ops lemmas -/

/-- Whatever the launch and screenshot oracles do, the tail of the workflow
only appends operations to the trace. -/
theorem afterInstall_ops_ext (env : WfEnv) (steps : List String) (deviceId : String)
    (ops : List String) :
    ∃ rest, (afterInstall env steps deviceId ops).ops = ops ++ rest := by
  unfold afterInstall
  cases hl : env.launch with
  | err m => exact ⟨["launch:" ++ deviceId], rfl⟩
  | ok a b =>
    cases hshot : env.screenshot with
    | error m => exact ⟨["launch:" ++ deviceId, "screenshot"], by simp⟩
    | ok shots => exact ⟨["launch:" ++ deviceId, "screenshot"], by simp⟩

/-- Once the simulator-start stage is reached with device `deviceId`, the
operation trace extends the incoming trace with `startSim:deviceId` first,
whatever the oracles answer afterwards. -/
theorem afterResolve_ops_head (env : WfEnv) (steps : List String) (deviceId : String)
    (ops : List String) :
    ∃ rest, (afterResolve env steps deviceId ops).ops =
      ops ++ ("startSim:" ++ deviceId) :: rest := by
  unfold afterResolve
  cases hs : env.startSim with
  | err m => exact ⟨[], by simp⟩
  | ok a b =>
    cases hp : env.plist with
    | err m => exact ⟨["plist"], by simp⟩
    | ok p q =>
      cases hc : isAppInstalledOnBootedSimulator env.container with
      | true =>
        simp only [hc, if_true]
        obtain ⟨rest, hrest⟩ := afterInstall_ops_ext env
          (((steps ++ ["Starting simulator..."]) ++ ["✓ Simulator started"] ++
              ["Checking installed app container for bundle: " ++ trimStr p ++ "..."]) ++
            ["✓ App already installed on booted simulator (get_app_container succeeded)"])
          deviceId
          (ops ++ [("startSim:" ++ deviceId)] ++ ["plist"] ++ ["container:" ++ trimStr p])
        refine ⟨["plist", "container:" ++ trimStr p] ++ rest, ?_⟩
        rw [hrest]
        simp
      | false =>
        simp only [hc, Bool.false_eq_true, if_false]
        cases hi : env.install with
        | err m =>
          exact ⟨["plist", "container:" ++ trimStr p, "install:" ++ deviceId], by simp⟩
        | ok u v =>
          obtain ⟨rest, hrest⟩ := afterInstall_ops_ext env
            ((((steps ++ ["Starting simulator..."]) ++ ["✓ Simulator started"] ++
                ["Checking installed app container for bundle: " ++ trimStr p ++ "..."]) ++
              ["Installing Flutter app..."]) ++ ["✓ App installed"])
            deviceId
            ((ops ++ [("startSim:" ++ deviceId)] ++ ["plist"] ++
              ["container:" ++ trimStr p]) ++ ["install:" ++ deviceId])
          refine ⟨["plist", "container:" ++ trimStr p, "install:" ++ deviceId] ++ rest, ?_⟩
          rw [hrest]
          simp

/-! ## C4 -/

/-- C4 counterexample: when device resolution fails (build succeeded, no
identifier supplied, discovery output matches nothing), the error response's
"failed at step" line is `✓ iOS app built successfully` — the previous
step's completion line, not the initiating log line of the step that was
last attempted. -/
theorem fullWorkflow_last_attempted_cex :
    fullWorkflow envResolveFail none =
      ⟨⟨[Content.text
            ("Workflow failed at step: ✓ iOS app built successfully" ++
              "\nError: No iOS simulator found\nCompleted steps:\nBuilding Flutter iOS app...")],
          true⟩,
        ["build", "devices"]⟩ ∧
    isInitiatingLogLine "✓ iOS app built successfully" = false := by
  refine ⟨by decide, by decide⟩

/-- C4 amended: a failure at any stage halts the workflow at once — the
operation trace ends at the failing operation — and the response reports the
most recent log line appended before the failure (the failing step's
initiating line when that step pushed one: build, simulator start, install,
launch, screenshot; the previous step's completion line otherwise), the
error message, and exactly the earlier log lines; in particular a failing
build reports `Building Flutter iOS app...` with an empty completed list. -/
theorem fullWorkflow_failure_reporting (env : WfEnv) (m : String) :
    (∀ dev, env.build = ExecOutcome.err m →
      fullWorkflow env dev = ⟨failResp ["Building Flutter iOS app..."] m, ["build"]⟩) ∧
    (∀ b1 b2, env.build = ExecOutcome.ok b1 b2 → env.devices = ExecOutcome.err m →
      fullWorkflow env none =
        ⟨failResp ["Building Flutter iOS app...", "✓ iOS app built successfully"] m,
          ["build", "devices"]⟩) ∧
    (∀ b1 b2 dOut d2, env.build = ExecOutcome.ok b1 b2 →
      env.devices = ExecOutcome.ok dOut d2 →
      extractSim ("Available Flutter devices:\n" ++ dOut) = none →
      fullWorkflow env none =
        ⟨failResp ["Building Flutter iOS app...", "✓ iOS app built successfully"]
            "No iOS simulator found",
          ["build", "devices"]⟩) ∧
    (∀ deviceId b1 b2, env.build = ExecOutcome.ok b1 b2 →
      env.startSim = ExecOutcome.err m →
      fullWorkflow env (some deviceId) =
        ⟨failResp ["Building Flutter iOS app...", "✓ iOS app built successfully",
            "Starting simulator..."] m,
          ["build", "startSim:" ++ deviceId]⟩) ∧
    (∀ deviceId b1 b2 a b, env.build = ExecOutcome.ok b1 b2 →
      env.startSim = ExecOutcome.ok a b → env.plist = ExecOutcome.err m →
      fullWorkflow env (some deviceId) =
        ⟨failResp ["Building Flutter iOS app...", "✓ iOS app built successfully",
            "Starting simulator...", "✓ Simulator started"] m,
          ["build", "startSim:" ++ deviceId, "plist"]⟩) ∧
    (∀ deviceId b1 b2 a b p q, env.build = ExecOutcome.ok b1 b2 →
      env.startSim = ExecOutcome.ok a b → env.plist = ExecOutcome.ok p q →
      isAppInstalledOnBootedSimulator env.container = false →
      env.install = ExecOutcome.err m →
      fullWorkflow env (some deviceId) =
        ⟨failResp ["Building Flutter iOS app...", "✓ iOS app built successfully",
            "Starting simulator...", "✓ Simulator started",
            "Checking installed app container for bundle: " ++ trimStr p ++ "...",
            "Installing Flutter app..."] m,
          ["build", "startSim:" ++ deviceId, "plist", "container:" ++ trimStr p,
            "install:" ++ deviceId]⟩) ∧
    (∀ deviceId b1 b2 a b p q, env.build = ExecOutcome.ok b1 b2 →
      env.startSim = ExecOutcome.ok a b → env.plist = ExecOutcome.ok p q →
      isAppInstalledOnBootedSimulator env.container = true →
      env.launch = ExecOutcome.err m →
      fullWorkflow env (some deviceId) =
        ⟨failResp ["Building Flutter iOS app...", "✓ iOS app built successfully",
            "Starting simulator...", "✓ Simulator started",
            "Checking installed app container for bundle: " ++ trimStr p ++ "...",
            "✓ App already installed on booted simulator (get_app_container succeeded)",
            "Launching Flutter app..."] m,
          ["build", "startSim:" ++ deviceId, "plist", "container:" ++ trimStr p,
            "launch:" ++ deviceId]⟩) ∧
    (∀ deviceId b1 b2 a b p q u v, env.build = ExecOutcome.ok b1 b2 →
      env.startSim = ExecOutcome.ok a b → env.plist = ExecOutcome.ok p q →
      isAppInstalledOnBootedSimulator env.container = true →
      env.launch = ExecOutcome.ok u v → env.screenshot = Except.error m →
      fullWorkflow env (some deviceId) =
        ⟨failResp ["Building Flutter iOS app...", "✓ iOS app built successfully",
            "Starting simulator...", "✓ Simulator started",
            "Checking installed app container for bundle: " ++ trimStr p ++ "...",
            "✓ App already installed on booted simulator (get_app_container succeeded)",
            "Launching Flutter app...", "✓ App launched", "Taking screenshot..."] m,
          ["build", "startSim:" ++ deviceId, "plist", "container:" ++ trimStr p,
            "launch:" ++ deviceId, "screenshot"]⟩) := by
  refine ⟨?_, ?_, ?_, ?_, ?_, ?_, ?_, ?_⟩
  · intro dev hb
    simp only [fullWorkflow, hb]
  · intro b1 b2 hb hd
    simp only [fullWorkflow, hb, hd]
    simp
  · intro b1 b2 dOut d2 hb hd hx
    simp only [fullWorkflow, hb, hd, hx]
    simp
  · intro deviceId b1 b2 hb hs
    simp only [fullWorkflow, hb, afterResolve, hs]
    simp
  · intro deviceId b1 b2 a b hb hs hp
    simp only [fullWorkflow, hb, afterResolve, hs, hp]
    simp
  · intro deviceId b1 b2 a b p q hb hs hp hc hi
    simp only [fullWorkflow, hb, afterResolve, hs, hp, hc, Bool.false_eq_true,
      if_false, hi]
    simp
  · intro deviceId b1 b2 a b p q hb hs hp hc hl
    simp only [fullWorkflow, hb, afterResolve, hs, hp, hc, if_true, afterInstall, hl]
    simp
  · intro deviceId b1 b2 a b p q u v hb hs hp hc hl hshot
    simp only [fullWorkflow, hb, afterResolve, hs, hp, hc, if_true, afterInstall,
      hl, hshot]
    simp

/-- Closed instance of `fullWorkflow_failure_reporting` on a build failure:
the reported step is `Building Flutter iOS app...` and the completed list is
empty. -/
theorem fullWorkflow_failure_witness :
    fullWorkflow envBuildFails none =
      ⟨failResp ["Building Flutter iOS app..."] "build broke", ["build"]⟩ :=
  (fullWorkflow_failure_reporting envBuildFails "build broke").1 none rfl

/-! ## C5 -/

/-- C5: with the build succeeded and no device identifier supplied, the
orchestrator consults device discovery; if the iOS-simulator pattern matches
the wrapped discovery output, the first captured identifier is used and the
workflow proceeds into the simulator-start stage with it; if nothing
matches, the run fails with `No iOS simulator found` after exactly the build
and discovery operations — zero further steps. -/
theorem fullWorkflow_device_resolution (env : WfEnv) (b1 b2 dOut d2 : String)
    (hb : env.build = ExecOutcome.ok b1 b2) (hd : env.devices = ExecOutcome.ok dOut d2) :
    (∀ deviceId, extractSim ("Available Flutter devices:\n" ++ dOut) = some deviceId →
      ∃ rest, (fullWorkflow env none).ops =
        ["build", "devices", "startSim:" ++ deviceId] ++ rest) ∧
    (extractSim ("Available Flutter devices:\n" ++ dOut) = none →
      fullWorkflow env none =
        ⟨failResp ["Building Flutter iOS app...", "✓ iOS app built successfully"]
            "No iOS simulator found",
          ["build", "devices"]⟩) := by
  constructor
  · intro deviceId hx
    have h1 : fullWorkflow env none =
        afterResolve env
          (["Building Flutter iOS app...", "✓ iOS app built successfully"] ++
            ["✓ Using iOS simulator: " ++ deviceId])
          deviceId ["build", "devices"] := by
      simp only [fullWorkflow, hb, hd, hx]
      rfl
    rw [h1]
    obtain ⟨rest, hrest⟩ := afterResolve_ops_head env
      (["Building Flutter iOS app...", "✓ iOS app built successfully"] ++
        ["✓ Using iOS simulator: " ++ deviceId])
      deviceId ["build", "devices"]
    exact ⟨rest, by rw [hrest]; rfl⟩
  · intro hx
    simp only [fullWorkflow, hb, hd, hx]
    simp

/-- Closed instance of `fullWorkflow_device_resolution`: the discovery
output `iOS Simulator (mobile) • ABCD-1 • ios` resolves to `ABCD-1` and the
workflow proceeds into simulator start with it. -/
theorem fullWorkflow_device_resolution_witness :
    ∃ rest, (fullWorkflow envResolveOk none).ops =
      ["build", "devices", "startSim:" ++ "ABCD-1"] ++ rest :=
  (fullWorkflow_device_resolution envResolveOk "" ""
      "iOS Simulator (mobile) • ABCD-1 • ios" "" rfl rfl).1 "ABCD-1" (by decide)

end FlutterCheckDesign
